import Mathlib

set_option maxRecDepth 100000

/-!
# Verification of the Video_Processor static-analysis scripts

Shallow embedding of three analyzer scripts of the repository:

* `src/tools/scientific_auditor.py` — an `ast.NodeVisitor` that walks a
  parsed Python syntax tree and records "Singularity Risk" and
  "Unit Ambiguity" findings into a module-level mutable list `RISKS`;
* `src/scripts/quality_check.py` — a line/regex based Python quality
  checker with a three-tier self-exclusion protocol;
* `src/tools/matlab_utilities/scripts/matlab_quality_check.py` — a
  line-oriented MATLAB checker with a nesting counter.

Each definition mirrors the corresponding Python function; regular
expressions are embedded as explicit scanners over `List Char` with the
semantics of Python's `re` on the inputs in question.
-/

namespace SciAuditor

/-- Python constant values as they occur in `ast.Constant.value`.
Float literals are carried as exact rationals; the auditor only tests
`isinstance(v, int | float)` and `v != 0`, never performs float
arithmetic, so this embedding is faithful for those observations. -/
inductive PyVal where
  | vint (n : Int)
  | vfloat (q : ℚ)
  | vbool (b : Bool)
  | vstr (s : String)
  | vnone
deriving DecidableEq, Repr

/-- `isinstance(v, int | float)` — note Python `bool` is a subclass of `int`. -/
def PyVal.isNum : PyVal → Bool
  | .vint _ => true
  | .vfloat _ => true
  | .vbool _ => true
  | .vstr _ => false
  | .vnone => false

/-- Python `v != 0` (`0` an int): ints and floats compare numerically,
`False == 0`, any non-numeric value is `!= 0`. -/
def PyVal.neZeroPy : PyVal → Bool
  | .vint n => n ≠ 0
  | .vfloat q => q ≠ 0
  | .vbool b => b
  | .vstr _ => true
  | .vnone => true

/-- Binary operators; the auditor only distinguishes `ast.Div`. -/
inductive PyOp where
  | div
  | otherOp
deriving DecidableEq, Repr

mutual
/-- The fragment of the Python `ast` expression nodes the auditor visits.
`attributeE` is `ast.Attribute` (`value.attr`), `call` is `ast.Call`
(fields `func`, `args`). -/
inductive PyExpr where
  | constant (lineno : Nat) (v : PyVal)
  | name (lineno : Nat) (id : String)
  | binOp (lineno : Nat) (op : PyOp) (left right : PyExpr)
  | attributeE (lineno : Nat) (base : PyExpr) (attr : String)
  | call (lineno : Nat) (func : PyExpr) (args : PyArgs)
deriving Repr

/-- Argument lists of a `Call` node. -/
inductive PyArgs where
  | nil
  | cons (a : PyExpr) (rest : PyArgs)
deriving Repr
end

mutual
def PyExpr.beq : PyExpr → PyExpr → Bool
  | .constant l₁ v₁, .constant l₂ v₂ => l₁ = l₂ ∧ v₁ = v₂
  | .name l₁ i₁, .name l₂ i₂ => l₁ = l₂ ∧ i₁ = i₂
  | .binOp l₁ o₁ a₁ b₁, .binOp l₂ o₂ a₂ b₂ =>
      (decide (l₁ = l₂) && decide (o₁ = o₂)) && (PyExpr.beq a₁ a₂ && PyExpr.beq b₁ b₂)
  | .attributeE l₁ b₁ a₁, .attributeE l₂ b₂ a₂ =>
      (decide (l₁ = l₂) && decide (a₁ = a₂)) && PyExpr.beq b₁ b₂
  | .call l₁ f₁ as₁, .call l₂ f₂ as₂ =>
      decide (l₁ = l₂) && (PyExpr.beq f₁ f₂ && PyArgs.beq as₁ as₂)
  | _, _ => false

def PyArgs.beq : PyArgs → PyArgs → Bool
  | .nil, .nil => true
  | .cons a r, .cons a' r' => PyExpr.beq a a' && PyArgs.beq r r'
  | _, _ => false
end

/-- A recorded risk entry: the dictionaries appended to `RISKS`. -/
structure Risk where
  line : Nat
  type : String
  msg : String
deriving DecidableEq, Repr

/-- Message of the division check. -/
def singularityMsg : String := "Division by variable detected. Check denominator."

/-- Message of the trig check. -/
def unitAmbiguityMsg : String :=
  "Trig function called with a numeric constant. Check if argument is in radians (Python math module expects radians)."

/-- `visit_BinOp` head test: flag unless the right operand is a literal
constant with value `!= 0`. -/
def rightIsNonzeroConst : PyExpr → Bool
  | .constant _ v => v.neZeroPy
  | _ => false

/-- `visit_Call` head test on the callee: `isinstance(node.func, ast.Attribute)
and node.func.attr in ["sin", "cos", "tan"]`. -/
def funcIsTrigAttr : PyExpr → Bool
  | .attributeE _ _ attr => attr = "sin" ∨ attr = "cos" ∨ attr = "tan"
  | _ => false

/-- `any(isinstance(arg, ast.Constant) and isinstance(arg.value, int | float)
for arg in node.args)`. -/
def anyNumericConstArg : PyArgs → Bool
  | .nil => false
  | .cons (.constant _ v) rest => v.isNum || anyNumericConstArg rest
  | .cons _ rest => anyNumericConstArg rest

mutual
/-- Risks appended while the visitor traverses an expression, in visit
order (node first, then `generic_visit` over children in field order). -/
def auditExpr : PyExpr → List Risk
  | .constant _ _ => []
  | .name _ _ => []
  | .binOp ln op l r =>
      (if op = PyOp.div ∧ ¬ rightIsNonzeroConst r = true
        then [⟨ln, "Singularity Risk", singularityMsg⟩] else [])
        ++ auditExpr l ++ auditExpr r
  | .attributeE _ base _ => auditExpr base
  | .call ln f args =>
      (if funcIsTrigAttr f = true ∧ anyNumericConstArg args = true
        then [⟨ln, "Unit Ambiguity", unitAmbiguityMsg⟩] else [])
        ++ auditExpr f ++ auditArgs args

/-- Risks from visiting each argument of a call, in order. -/
def auditArgs : PyArgs → List Risk
  | .nil => []
  | .cons a rest => auditExpr a ++ auditArgs rest
end

/-- Statements of the embedded module fragment.  An assignment visits its
target names (which yield no risks) and then its value. -/
inductive PyStmt where
  | assign (lineno : Nat) (target : String) (value : PyExpr)
  | exprStmt (lineno : Nat) (e : PyExpr)
deriving Repr

/-- Risks recorded while visiting one statement. -/
def auditStmt : PyStmt → List Risk
  | .assign _ _ v => auditExpr v
  | .exprStmt _ e => auditExpr e

/-- Risks recorded while visiting a whole module (list of statements). -/
def auditModule (m : List PyStmt) : List Risk :=
  m.foldr (fun s acc => auditStmt s ++ acc) []

/-- One invocation of `ScienceAuditor().visit(ast.parse(...))` appends the
module's risks to the module-level global `RISKS`; the report printed by
`main` is the resulting value of `RISKS`. -/
def auditRun (risks : List Risk) (m : List PyStmt) : List Risk :=
  risks ++ auditModule m

end SciAuditor

namespace StrScan

/-- Characters stripped by Python `str.strip()` / matched by `\s`
(ASCII: space, tab, newline, carriage return, vertical tab, form feed). -/
def wsChar (c : Char) : Bool :=
  c = ' ' || c = '\t' || c = '\n' || c = '\r' || c.toNat = 11 || c.toNat = 12

/-- Characters matched by `\w` (ASCII letters, digits, underscore). -/
def wordChar (c : Char) : Bool :=
  c.isAlphanum || c = '_'

/-- Python `str.strip()` on a character list. -/
def pstripL (l : List Char) : List Char :=
  ((l.dropWhile wsChar).reverse.dropWhile wsChar).reverse

/-- Python `str.strip()`. -/
def pstrip (s : String) : String :=
  ⟨pstripL s.toList⟩

/-- `needle` is a literal leading pattern of `hay`. -/
def isPfx : List Char → List Char → Bool
  | [], _ => true
  | _ :: _, [] => false
  | c :: n, d :: h => c = d && isPfx n h

/-- Substring occurrence test (Python `needle in hay`). -/
def containsSubL (n : List Char) : List Char → Bool
  | [] => isPfx n []
  | c :: t => isPfx n (c :: t) || containsSubL n t

/-- Index of the first substring occurrence (Python `str.find`, with
`none` standing for `-1`). -/
def firstIdxSubL (n : List Char) : List Char → Option Nat
  | [] => if isPfx n [] then some 0 else none
  | c :: t => if isPfx n (c :: t) then some 0 else (firstIdxSubL n t).map (· + 1)

/-- String-level prefix test (Python `str.startswith`). -/
def sStartsWith (p s : String) : Bool :=
  isPfx p.toList s.toList

/-- String-level suffix test (Python `str.endswith`). -/
def sEndsWith (p s : String) : Bool :=
  isPfx p.toList.reverse s.toList.reverse

/-- String-level substring test (Python `p in s`). -/
def containsSub (p s : String) : Bool :=
  containsSubL p.toList s.toList

/-- Python `str.lower()` (ASCII). -/
def toLowerL (l : List Char) : List Char :=
  l.map Char.toLower

/-- Regex word boundary to the left of a match: start of string or a
non-word character before it. -/
def boundaryBefore : Option Char → Bool
  | none => true
  | some c => !wordChar c

/-- Regex word boundary to the right of a match: end of string or a
non-word character after it. -/
def boundaryAfter : List Char → Bool
  | [] => true
  | c :: _ => !wordChar c

/-- `re.search(r"\bW\b", s)` for a word `W` made of word characters:
some occurrence of `W` with word boundaries on both sides.  The scanner
carries the previous character for the left boundary. -/
def wordBoundedAux (w : List Char) : Option Char → List Char → Bool
  | _, [] => false
  | prev, c :: t =>
    (boundaryBefore prev && isPfx w (c :: t) && boundaryAfter (List.drop w.length (c :: t)))
      || wordBoundedAux w (some c) t

/-- Word-bounded substring search over a string. -/
def wordBoundedSub (w s : String) : Bool :=
  wordBoundedAux w.toList none s.toList

/-- Pair each list element with its 1-based position, starting at `start`
(Python `enumerate(lines, start)`). -/
def withIdx (start : Nat) : List α → List (Nat × α)
  | [] => []
  | a :: t => (start, a) :: withIdx (start + 1) t

/-- `"\n".join(lines)`. -/
def joinLines : List String → String
  | [] => ""
  | [s] => s
  | s :: t => s ++ "\n" ++ joinLines t

/-- Split a character list at every newline, keeping all fields
(Python `split("\n")`). -/
def splitAllNL : List Char → List (List Char)
  | [] => [[]]
  | '\n' :: t => [] :: splitAllNL t
  | c :: t =>
    match splitAllNL t with
    | l :: ls => (c :: l) :: ls
    | [] => [[c]]

/-- Python `content.splitlines()` for `\n`-separated text: like
`split("\n")` but without a trailing empty field when the text ends in a
newline, and `[]` for empty text. -/
def pySplitlines (s : String) : List String :=
  match s.toList with
  | [] => []
  | cs =>
    let parts := splitAllNL cs
    (if parts.getLast? = some [] then parts.dropLast else parts).map
      fun l => String.mk l

end StrScan

namespace QualityCheck

open StrScan

/-- An issue record `(line, message, snippet)` as returned by the checks
of `quality_check.py` (`0` = whole-file). -/
abbrev Issue := Nat × String × String

/-- `_QUALITY_CHECK_SCRIPT_MARKER`. -/
def marker : String := "QUALITY_CHECK_SCRIPT_V1"

/-- A candidate file as the checker observes it.  `pathMatch` abstracts
the outcome of `_check_absolute_path` (it resolves filesystem paths and
compares them with the script's recorded absolute path — a property of
the surrounding filesystem, not of the file's name or content);
`fileExists`, `openOk` and `readOk` abstract the corresponding
filesystem-dependent guards, and `readErrText` the text of a read
exception. -/
structure PFile where
  name : String
  content : String
  fileExists : Bool
  openOk : Bool
  readOk : Bool
  readErrText : String
  pathMatch : Bool
deriving DecidableEq, Repr

/-- `_check_filename`: the fixed denylist `_EXCLUDED_NAMES` joined with
the script's own recorded basename (`quality_check.py`). -/
def checkFilename (f : PFile) : Bool :=
  f.name = "quality_check_script.py" || f.name = "quality_check.py"

/-- `_check_content_signature`: read the first 4096 characters and look
for the unique marker, falling back to the compound
pattern-table/title/function signature check. -/
def contentSignature (f : PFile) : Bool :=
  if !f.fileExists then false
  else if !f.openOk then false
  else
    let start := f.content.toList.take 4096
    containsSubL marker.toList start ||
      (containsSubL "BANNED_PATTERNS = [".toList start &&
        containsSubL "Quality check script".toList start &&
        containsSubL "def should_exclude_file".toList start)

/-- `should_exclude_file`: the three checks ORed, in cost order. -/
def shouldExcludeFile (f : PFile) : Bool :=
  checkFilename f || f.pathMatch || contentSignature f

/-- `prev` is not a digit (for the `(?<![0-9])` lookbehind). -/
def notDigitO : Option Char → Bool
  | none => true
  | some c => !c.isDigit

/-- Search for a magic-number pattern: a lookbehind-guarded literal
`core` whose remainder must satisfy `tailOk` (the optional-digit plus
negative-lookahead part of the pattern). -/
def searchNumPat (core : List Char) (tailOk : List Char → Bool) :
    Option Char → List Char → Bool
  | _, [] => false
  | prev, c :: t =>
    (notDigitO prev && isPfx core (c :: t) && tailOk (List.drop core.length (c :: t)))
      || searchNumPat core tailOk (some c) t

/-- `[0-9]?(?![0-9])`: fails only when two digits follow. -/
def optDigitNoDigit : List Char → Bool
  | c :: d :: _ => !(c.isDigit && d.isDigit)
  | _ => true

/-- `re.search(r"(?<![0-9])3\.141", s)`. -/
def hasPiLiteral (s : List Char) : Bool :=
  searchNumPat "3.141".toList (fun _ => true) none s

/-- `re.search(r"(?<![0-9])9\.8[0-9]?(?![0-9])", s)`. -/
def hasGravityLiteral (s : List Char) : Bool :=
  searchNumPat "9.8".toList optDigitNoDigit none s

/-- `re.search(r"(?<![0-9])6\.67[0-9]?(?![0-9])", s)`. -/
def hasBigGLiteral (s : List Char) : Bool :=
  searchNumPat "6.67".toList optDigitNoDigit none s

/-- `check_magic_numbers`: per line, strip a trailing `#` comment
(`line[: line.index("#")]`), then test the three constant patterns;
skipped entirely when the cached exclusion flag is set. -/
def checkMagicNumbers (lines : List String) (isExcluded : Bool) : List Issue :=
  if isExcluded then []
  else
    (withIdx 1 lines).flatMap fun p =>
      let lc := p.2.toList.takeWhile (· ≠ '#')
      (if hasPiLiteral lc then [(p.1, "Use math.pi instead of 3.141", pstrip p.2)] else [])
        ++ (if hasGravityLiteral lc then [(p.1, "Define GRAVITY_M_S2 constant", pstrip p.2)] else [])
        ++ (if hasBigGLiteral lc then [(p.1, "Define gravitational constant", pstrip p.2)] else [])

/-- Line from a list by 1-based number (`lines[i - 1]`); the callers only
use indices in range. -/
def getLine (lines : List String) (i : Nat) : String :=
  (lines.get? (i - 1)).getD ""

/-- Backward loop of `_is_in_class_definition`: `i` counts down to
`stop` (exclusive), inspecting 1-based line `i`; a `class` header is
legitimate, a `def` header stops with a negative verdict, and a line
ending in `:` containing one of the scope keywords is legitimate. -/
def isInClassDefAux (lines : List String) (stop : Nat) : Nat → Bool
  | 0 => false
  | i + 1 =>
    if i + 1 ≤ stop then false
    else
      let prev := pstrip (getLine lines (i + 1))
      if sStartsWith "class " prev then true
      else if sStartsWith "def " prev then false
      else if sEndsWith ":" prev &&
          (containsSub "try:" prev || containsSub "except" prev ||
            containsSub "finally:" prev || containsSub "with " prev ||
            containsSub "if __name__" prev) then true
      else isInClassDefAux lines stop i

/-- `_is_in_class_definition`: scan backward within a 10-line window. -/
def isInClassDef (lines : List String) (lineNum : Nat) : Bool :=
  isInClassDefAux lines (lineNum - 10) (lineNum - 1)

/-- Backward loop of `_is_in_try_except_block`. -/
def isInTryExceptAux (lines : List String) (stop : Nat) : Nat → Bool
  | 0 => false
  | i + 1 =>
    if i + 1 ≤ stop then false
    else
      let prev := pstrip (getLine lines (i + 1))
      if containsSub "try:" prev || containsSub "except" prev then true
      else isInTryExceptAux lines stop i

/-- `_is_in_try_except_block`: scan backward within a 5-line window. -/
def isInTryExcept (lines : List String) (lineNum : Nat) : Bool :=
  isInTryExceptAux lines (lineNum - 5) (lineNum - 1)

/-- Backward loop of `_is_in_context_manager`. -/
def isInCtxManagerAux (lines : List String) (stop : Nat) : Nat → Bool
  | 0 => false
  | i + 1 =>
    if i + 1 ≤ stop then false
    else
      let prev := pstrip (getLine lines (i + 1))
      if sStartsWith "with " prev then true
      else isInCtxManagerAux lines stop i

/-- `_is_in_context_manager`: scan backward within a 3-line window. -/
def isInCtxManager (lines : List String) (lineNum : Nat) : Bool :=
  isInCtxManagerAux lines (lineNum - 3) (lineNum - 1)

/-- `is_legitimate_pass_context`: the line must be exactly `pass` after
stripping, and one of the three backward heuristics must accept. -/
def isLegitimatePassContext (lines : List String) (lineNum : Nat) : Bool :=
  if lineNum = 0 || lineNum > lines.length then false
  else if pstrip (getLine lines lineNum) ≠ "pass" then false
  else isInClassDef lines lineNum || isInTryExcept lines lineNum
    || isInCtxManager lines lineNum

/-- `re.search(r"^\s*\.\.\.\s*$", line)`: the line strips to `...`. -/
def ellipsisLine (line : String) : Bool :=
  pstrip line = "..."

/-- `re.search(r"<.*>", line)`: a `<` with some `>` after it (lines carry
no newline, so `.` covers every later character). -/
def anglePat : List Char → Bool
  | [] => false
  | c :: t => (c = '<' && t.contains '>') || anglePat t

/-- `re.search(r"A.*B", line, re.IGNORECASE)`: some occurrence of `a`
followed (anywhere later) by `b`, on the lowercased line. -/
def seqPat (a b : List Char) (s : List Char) : Bool :=
  let ls := toLowerL s
  match firstIdxSubL a ls with
  | none => false
  | some i => containsSubL b (ls.drop (i + a.length))

/-- The issues the `BANNED_PATTERNS` table contributes for one line, in
table order. -/
def bannedLineIssues (i : Nat) (line : String) : List Issue :=
  (if wordBoundedSub "TODO" line then [(i, "TODO placeholder found", pstrip line)] else [])
    ++ (if wordBoundedSub "FIXME" line then [(i, "FIXME placeholder found", pstrip line)] else [])
    ++ (if ellipsisLine line then [(i, "Ellipsis placeholder", pstrip line)] else [])
    ++ (if containsSub "NotImplementedError" line then
          [(i, "NotImplementedError placeholder", pstrip line)] else [])
    ++ (if anglePat line.toList then [(i, "Angle bracket placeholder", pstrip line)] else [])
    ++ (if seqPat "your".toList "here".toList line.toList then
          [(i, "Template placeholder", pstrip line)] else [])
    ++ (if seqPat "insert".toList "here".toList line.toList then
          [(i, "Template placeholder", pstrip line)] else [])

/-- `re.search(r"\(re\.compile\(r\"[^\"]*TOK", line)`: an occurrence of
the rule-table opener followed, within the run of non-quote characters,
by the token. -/
def compileSkip (tok : List Char) : List Char → Bool
  | [] => false
  | c :: t =>
    (isPfx "(re.compile(r\"".toList (c :: t) &&
        containsSubL tok ((List.drop 14 (c :: t)).takeWhile (· ≠ '"')))
      || compileSkip tok t

/-- `re.search(r"^\s*BANNED_PATTERNS\s*=", line)`. -/
def bannedAssignLine (line : String) : Bool :=
  let r := line.toList.dropWhile wsChar
  isPfx "BANNED_PATTERNS".toList r &&
    (match (List.drop 15 r).dropWhile wsChar with
      | '=' :: _ => true
      | _ => false)

/-- The per-line guard that skips rule-definition lines inside
`check_banned_patterns`. -/
def skipPatternDefLine (line : String) : Bool :=
  compileSkip "TODO".toList line.toList
    || compileSkip "FIXME".toList line.toList
    || compileSkip "NotImplementedError".toList line.toList
    || bannedAssignLine line
    || containsSub "\"TODO placeholder" line
    || containsSub "\"FIXME placeholder" line
    || containsSub "\"NotImplementedError placeholder" line

/-- Body of the `check_banned_patterns` line loop: the skip guard, the
banned-pattern table, and the contextual empty-`pass` check (which sees
the whole line list for its backward scan). -/
def perLineBanned (lines : List String) (p : Nat × String) : List Issue :=
  if skipPatternDefLine p.2 then []
  else
    bannedLineIssues p.1 p.2
      ++ (if pstrip p.2 = "pass" && !isLegitimatePassContext lines p.1 then
            [(p.1, "Empty pass statement - consider adding logic or comment", pstrip p.2)]
          else [])

/-- `check_banned_patterns`: the whole-content marker defense, the cached
exclusion flag, then the per-line loop. -/
def checkBannedPatterns (lines : List String) (isExcluded : Bool) : List Issue :=
  if lines ≠ [] &&
      (containsSub marker (joinLines lines) ||
        (containsSub "BANNED_PATTERNS = [" (joinLines lines) &&
          containsSub "Quality check script" (joinLines lines))) then []
  else if isExcluded then []
  else (withIdx 1 lines).flatMap (perLineBanned lines)

/-- `check_file`: exclusion first, then the read, the in-driver marker
defense, and the three rule sets.  `astCheck` abstracts
`check_ast_issues` (it parses the file with `ast.parse`, outside the
reach of this line-level embedding); the exclusion claim holds for every
such function. -/
def checkFile (astCheck : String → List Issue) (f : PFile) : List Issue :=
  if shouldExcludeFile f then []
  else if !f.readOk then [(0, "Error reading file: " ++ f.readErrText, "")]
  else if containsSub marker f.content ||
      (containsSub "BANNED_PATTERNS = [" f.content &&
        containsSub "Quality check script" f.content) then []
  else
    checkBannedPatterns (pySplitlines f.content) false
      ++ checkMagicNumbers (pySplitlines f.content) false
      ++ astCheck f.content

/-- An excluded-by-content file carrying a magic number: exercised by the
C1 counterexample. -/
def exclFileWithMagic : PFile :=
  { name := "foo.py"
    content := marker ++ "\nx = 3.141"
    fileExists := true
    openOk := true
    readOk := true
    readErrText := ""
    pathMatch := false }

/-- A file whose content contains the marker only beyond the 4096-char
window read by `_check_content_signature`. -/
def markerPastWindowFile : PFile :=
  { name := "foo.py"
    content := String.mk (List.replicate 4096 'a') ++ marker
    fileExists := true
    openOk := true
    readOk := true
    readErrText := ""
    pathMatch := false }

/-- A small file containing the marker inside the window. -/
def markerInWindowFile : PFile :=
  { name := "bar.py"
    content := "# QUALITY_CHECK_SCRIPT_V1 - Unique marker"
    fileExists := true
    openOk := true
    readOk := true
    readErrText := ""
    pathMatch := false }

end QualityCheck

namespace MatlabCheck

open StrScan

/-- A stripped line that is a comment (`line_stripped.startswith("%")`). -/
def isCommentL : List Char → Bool
  | '%' :: _ => true
  | _ => false

/-- The nesting-opening keywords of
`r"\b(function|if|for|while|switch|try|parfor|classdef|arguments|properties|methods|events)\b"`. -/
def openKeywords : List (List Char) :=
  ["function", "if", "for", "while", "switch", "try", "parfor", "classdef",
    "arguments", "properties", "methods", "events"].map String.toList

/-- `re.match` of the opening-keyword pattern on a stripped line: one of
the keywords leads the line with a word boundary after it. -/
def openMatch (ls : List Char) : Bool :=
  openKeywords.any fun kw => isPfx kw ls && boundaryAfter (ls.drop kw.length)

/-- `re.match(r"\bend\b", line_stripped)`. -/
def endMatch (ls : List Char) : Bool :=
  isPfx "end".toList ls && boundaryAfter (ls.drop 3)

/-- Nesting update of a non-empty non-comment stripped line: an opening
keyword increments the counter (and a `function` header raises the
"inside function" flag); an `end` decrements it, and when the counter
falls to zero or below it is reset to zero and the flag is cleared. -/
def nestUpd (st : Bool × Int) (ls : List Char) : Bool × Int :=
  let lvl1 := if openMatch ls then st.2 + 1 else st.2
  let inF1 := if openMatch ls && isPfx "function".toList ls then true else st.1
  if endMatch ls then
    (if lvl1 - 1 ≤ 0 then (false, 0) else (inF1, lvl1 - 1))
  else (inF1, lvl1)

/-- Per-line state transition of the scanner (empty and comment lines
leave the state unchanged). -/
def nestStep (st : Bool × Int) (line : String) : Bool × Int :=
  let ls := pstripL line.toList
  if ls = [] then st
  else if isCommentL ls then st
  else nestUpd st ls

/-- State of the scanner after a sequence of lines, starting outside any
function with a zero counter. -/
def scanState (lines : List String) : Bool × Int :=
  lines.foldl nestStep (false, 0)

/-- The `(?<![.\w])` lookbehind of the magic-number pattern. -/
def numLookbehind : Option Char → Bool
  | none => true
  | some c => !(c = '.' || wordChar c)

/-- The `(?![.\w])` lookahead of the magic-number pattern. -/
def numLookahead : List Char → Bool
  | [] => true
  | c :: _ => !(c = '.' || wordChar c)

/-- Fueled scanner for
`re.findall(r"(?<![.\w])(?:\d+\.\d+|\d+)(?![.\w])", s)`: at a position
with a clear lookbehind and a digit, the engine can only match the full
digit run (optionally dot and a second full run) and only when the
lookahead clears — every backtracking alternative stops at a digit or a
dot and fails — otherwise it advances one character.  Each recursive
call shortens the list, so `length + 1` fuel never runs out. -/
def findNumsAux : Nat → Option Char → List Char → List (List Char)
  | 0, _, _ => []
  | _ + 1, _, [] => []
  | fuel + 1, prev, c :: rest =>
    if numLookbehind prev && c.isDigit then
      let a := (c :: rest).takeWhile Char.isDigit
      let r1 := (c :: rest).dropWhile Char.isDigit
      match r1 with
      | '.' :: r2 =>
        let b := r2.takeWhile Char.isDigit
        let r3 := r2.dropWhile Char.isDigit
        if b ≠ [] && numLookahead r3 then
          (a ++ '.' :: b) :: findNumsAux fuel (some (b.getLastD '0')) r3
        else findNumsAux fuel (some c) rest
      | _ =>
        if numLookahead r1 then a :: findNumsAux fuel (some (a.getLastD '0')) r1
        else findNumsAux fuel (some c) rest
    else findNumsAux fuel (some c) rest

/-- The numeric literals extracted from a stripped line, in order. -/
def findNums (ls : List Char) : List (List Char) :=
  findNumsAux (ls.length + 1) none ls

/-- The `acceptable_numbers` set. -/
def acceptableNumbers : List String :=
  ["0", "0.0", "1", "1.0", "2", "2.0", "3", "3.0", "4", "4.0", "5", "5.0",
    "10", "10.0", "100", "100.0", "1000", "1000.0",
    "0.5", "0.1", "0.01", "0.001", "0.0001"]

/-- The `known_constants` table: literal → description with units. -/
def knownConstants (n : String) : Option String :=
  if n = "3.14159" then some "pi constant [dimensionless] - mathematical constant"
  else if n = "3.1416" then some "pi constant [dimensionless] - mathematical constant"
  else if n = "3.14" then some "pi constant [dimensionless] - mathematical constant"
  else if n = "1.5708" then some "pi/2 constant [dimensionless] - mathematical constant"
  else if n = "1.57" then some "pi/2 constant [dimensionless] - mathematical constant"
  else if n = "0.7854" then some "pi/4 constant [dimensionless] - mathematical constant"
  else if n = "0.785" then some "pi/4 constant [dimensionless] - mathematical constant"
  else if n = "9.81" then some "gravitational acceleration [m/s²] - approximate standard gravity"
  else if n = "9.8" then some "gravitational acceleration [m/s²] - approximate standard gravity"
  else if n = "9.807" then some "gravitational acceleration [m/s²] - approximate standard gravity"
  else none

/-- Issue text prefix `f"{file_path.name} (line {i}): "` plus a message. -/
def msgAt (name : String) (i : Nat) (m : String) : String :=
  name ++ " (line " ++ toString i ++ "): " ++ m

/-- The magic-number issues of one line: a known constant is flagged with
its description unconditionally; any other non-acceptable literal is
flagged unless its first occurrence in the original (unstripped) line
falls after the first `%`. -/
def magicIssues (name : String) (i : Nat) (lineOriginal : String) (ls : List Char) :
    List String :=
  (findNums ls).flatMap fun numL =>
    let num := String.mk numL
    match knownConstants num with
    | some desc =>
      [msgAt name i ("Magic number " ++ num ++ " (" ++ desc ++ ") - define as named constant")]
    | none =>
      if acceptableNumbers.contains num then []
      else
        let commentIdx := firstIdxSubL ['%'] lineOriginal.toList
        let numIdx := firstIdxSubL numL lineOriginal.toList
        if (match commentIdx, numIdx with
            | none, _ => true
            | some ci, some ni => decide (ni < ci)
            | some _, none => false) then
          [msgAt name i ("Magic number " ++ num ++
            " should be defined as constant with units and source")]
        else []

/-- `[A-Z_]`. -/
def upOrUnderscore (c : Char) : Bool :=
  ('A' ≤ c && c ≤ 'Z') || c = '_'

/-- `[A-Z0-9_]`. -/
def upDigitUnderscore (c : Char) : Bool :=
  upOrUnderscore c || c.isDigit

/-- `re.search(r"<[A-Z_][A-Z0-9_]*>", s)`: a `<`, an upper/underscore
character, a maximal `[A-Z0-9_]` run, then a `>` (no shorter run can
succeed because the stopping character would have to be `>`). -/
def matAngle : List Char → Bool
  | [] => false
  | c :: t =>
    (c = '<' &&
      (match t with
        | c1 :: t2 =>
          upOrUnderscore c1 &&
            (match t2.dropWhile upDigitUnderscore with
              | '>' :: _ => true
              | _ => false)
        | [] => false))
      || matAngle t

/-- An opening curly brace (written by code point to keep brace
characters out of string literals). -/
def braceL : Char := Char.ofNat 123

/-- A closing curly brace. -/
def braceR : Char := Char.ofNat 125

/-- `re.search(r"\{\{.*?\}\}", s)`: a double opening brace with a double
closing brace somewhere at least two characters later. -/
def hasTemplate (ls : List Char) : Bool :=
  match firstIdxSubL [braceL, braceL] ls with
  | none => false
  | some i => containsSubL [braceR, braceR] (ls.drop (i + 2))

/-- The `banned_patterns` issues of one line, in table order. -/
def matBanned (name : String) (i : Nat) (ls : List Char) : List String :=
  (if wordBoundedAux "TODO".toList none ls then [msgAt name i "TODO placeholder found"] else [])
    ++ (if wordBoundedAux "FIXME".toList none ls then [msgAt name i "FIXME placeholder found"] else [])
    ++ (if wordBoundedAux "HACK".toList none ls then [msgAt name i "HACK comment found"] else [])
    ++ (if wordBoundedAux "XXX".toList none ls then [msgAt name i "XXX comment found"] else [])
    ++ (if matAngle ls then [msgAt name i "Angle bracket placeholder found"] else [])
    ++ (if hasTemplate ls then [msgAt name i "Template placeholder found"] else [])

/-- `re.search(r"\bW\s*\(", s)` for a word `W`: a word-bounded occurrence
of `W` followed by optional whitespace and an opening parenthesis. -/
def callPatAux (w : List Char) : Option Char → List Char → Bool
  | _, [] => false
  | prev, c :: t =>
    (boundaryBefore prev && isPfx w (c :: t) &&
      (match (List.drop w.length (c :: t)).dropWhile wsChar with
        | '(' :: _ => true
        | _ => false))
      || callPatAux w (some c) t

/-- `re.search(r"\bglobal\s+\w+", s)`: `global`, at least one whitespace
character, then a word character (the first non-whitespace character
after the run must be a word character). -/
def globalPatAux : Option Char → List Char → Bool
  | _, [] => false
  | prev, c :: t =>
    (boundaryBefore prev && isPfx "global".toList (c :: t) &&
      (match List.drop 6 (c :: t) with
        | d :: t2 =>
          wsChar d &&
            (match (d :: t2).dropWhile wsChar with
              | e :: _ => wordChar e
              | [] => false)
        | [] => false))
      || globalPatAux (some c) t

/-- `\s+\w` from a given suffix: at least one whitespace character then a
word character. -/
def wsThenWord : List Char → Bool
  | d :: t2 =>
    wsChar d &&
      (match (d :: t2).dropWhile wsChar with
        | e :: _ => wordChar e
        | [] => false)
  | [] => false

/-- `\s*\([^)]+\)` from a given suffix: optional whitespace, an opening
parenthesis, at least one non-`)` character, then `)`. -/
def parenArgForm (r4 : List Char) : Bool :=
  match r4.dropWhile wsChar with
  | '(' :: t2 =>
    decide (t2.takeWhile (fun c => !(c = ')')) ≠ []) &&
      (match t2.dropWhile (fun c => !(c = ')')) with
        | ')' :: _ => true
        | _ => false)
  | _ => false

/-- The load-without-capture test:
`(re.search(r"^\s*load\s+\w+", s) or re.search(r"^\s*load\s*\([^)]+\)", s))
and "=" not in s`. -/
def loadNoCapture (ls : List Char) : Bool :=
  let r := ls.dropWhile wsChar
  (isPfx "load".toList r &&
      (wsThenWord (List.drop 4 r) || parenArgForm (List.drop 4 r)))
    && !ls.contains '='

/-- `re.search(r"\bclear\s+(all|global)\b", s, re.IGNORECASE)` scanned
over the lowercased line: a word-bounded `clear`, at least one
whitespace character, then `all` or `global` with a word boundary. -/
def wordBoundedAll (r : List Char) : Bool :=
  isPfx "all".toList r && boundaryAfter (r.drop 3)

/-- `(all|global)\b` at the start of a suffix. -/
def allOrGlobalBounded (r : List Char) : Bool :=
  wordBoundedAll r || (isPfx "global".toList r && boundaryAfter (r.drop 6))

def clearAllAux : Option Char → List Char → Bool
  | _, [] => false
  | prev, c :: t =>
    (boundaryBefore prev && isPfx "clear".toList (c :: t) &&
      (match List.drop 5 (c :: t) with
        | d :: t2 => wsChar d && allOrGlobalBounded ((d :: t2).dropWhile wsChar)
        | [] => false))
      || clearAllAux (some c) t

/-- The ignore-case blanket-clear test on a stripped line. -/
def clearAllPat (ls : List Char) : Bool :=
  clearAllAux none (toLowerL ls)

/-- `re.search(r"\bclear\b(?!\s+\w+)", s)`: a word-bounded `clear` not
followed by whitespace and a word character. -/
def plainClearAux : Option Char → List Char → Bool
  | _, [] => false
  | prev, c :: t =>
    (boundaryBefore prev && isPfx "clear".toList (c :: t) &&
      boundaryAfter (List.drop 5 (c :: t)) && !wsThenWord (List.drop 5 (c :: t)))
      || plainClearAux (some c) t

/-- The plain-clear test on a stripped line. -/
def plainClearPat (ls : List Char) : Bool :=
  plainClearAux none ls

/-- `re.search(r"\bclose\s+all\b", s)`. -/
def closeAllAux : Option Char → List Char → Bool
  | _, [] => false
  | prev, c :: t =>
    (boundaryBefore prev && isPfx "close".toList (c :: t) &&
      (match List.drop 5 (c :: t) with
        | d :: t2 => wsChar d && wordBoundedAll ((d :: t2).dropWhile wsChar)
        | [] => false))
      || closeAllAux (some c) t

/-- The figure-close-all test on a stripped line. -/
def closeAllPat (ls : List Char) : Bool :=
  closeAllAux none ls

/-- The clear/console/figure checks: the whole block is guarded by the
"inside function" flag; within it, blanket clear-all takes priority over
plain clear, and the `clc` and `close all` checks run independently. -/
def clearFamilyIssues (inF : Bool) (name : String) (i : Nat) (ls : List Char) :
    List String :=
  if inF then
    (if clearAllPat ls then
        [msgAt name i "Avoid 'clear all' or 'clear global' in functions - clears all variables, functions, and MEX links"]
      else if plainClearPat ls then
        [msgAt name i "Avoid 'clear' in functions - can clear function variables"]
      else [])
      ++ (if wordBoundedAux "clc".toList none ls then
            [msgAt name i "Avoid 'clc' in functions - affects user's workspace"]
          else [])
      ++ (if closeAllPat ls then
            [msgAt name i "Avoid 'close all' in functions - closes user's figures"]
          else [])
  else []

/-- The docstring lookahead over the (at most five) following lines: a
non-empty non-comment line stops the search, a comment line longer than
three characters succeeds, anything else continues. -/
def hasDocstring : List String → Bool
  | [] => false
  | nl :: t =>
    let s := pstrip nl
    if s ≠ "" && !sStartsWith "%" s then false
    else if sStartsWith "%" s && s.length > 3 then true
    else hasDocstring t

/-- The arguments-block lookahead over the (at most fifteen) following
lines, skipping comment lines. -/
def hasArgumentsBlock : List String → Bool
  | [] => false
  | nl :: t =>
    let s := pstrip nl
    if sStartsWith "%" s then hasArgumentsBlock t
    else if wordBoundedSub "arguments" s then true
    else hasArgumentsBlock t

/-- All issues contributed by one line of `_analyze_matlab_file`, plus
the updated scanner state.  `nexts` is the list of lines after this one;
the clear-family block reads the flag updated by this same line. -/
def processLine (name : String) (i : Nat) (line : String) (nexts : List String)
    (st : Bool × Int) : List String × (Bool × Int) :=
  let ls := pstripL line.toList
  if ls = [] then ([], st)
  else
    let isC := isCommentL ls
    let st2 := if isC then st else nestUpd st ls
    let funcIss :=
      if isPfx "function".toList ls && !isC then
        (if hasDocstring (nexts.take 5) then []
          else [msgAt name i "Missing function docstring"])
          ++ (if hasArgumentsBlock (nexts.take 15) then []
              else [msgAt name i "Missing arguments validation block"])
      else []
    let bannedIss := matBanned name i ls
    if isC then (funcIss ++ bannedIss, st2)
    else
      let codeIss :=
        (if callPatAux "eval".toList none ls then
            [msgAt name i "Avoid using eval() - potential security risk and performance issue"]
          else [])
          ++ (if callPatAux "assignin".toList none ls then
                [msgAt name i "Avoid using assignin() - violates encapsulation"]
              else [])
          ++ (if callPatAux "evalin".toList none ls then
                [msgAt name i "Avoid using evalin() - violates encapsulation"]
              else [])
          ++ (if globalPatAux none ls then
                [msgAt name i "Global variable usage - consider passing as argument"]
              else [])
          ++ (if loadNoCapture ls then
                [msgAt name i "load without output variable - use 'data = load(...)' instead"]
              else [])
          ++ magicIssues name i line ls
          ++ clearFamilyIssues st2.1 name i ls
          ++ (if callPatAux "exist".toList none ls then
                [msgAt name i "Consider using validation or try/catch instead of exist()"]
              else [])
          ++ (if st2.1 && callPatAux "addpath".toList none ls then
                [msgAt name i "Avoid addpath in functions - manage paths externally"]
              else [])
      (funcIss ++ bannedIss ++ codeIss, st2)

/-- The line loop of `_analyze_matlab_file`, threading the 1-based line
number and the scanner state. -/
def goLines (name : String) : Nat → (Bool × Int) → List String → List String
  | _, _, [] => []
  | i, st, l :: rest =>
    (processLine name i l rest st).1 ++ goLines name (i + 1) (processLine name i l rest st).2 rest

/-- Issues of a file given as its split lines. -/
def analyzeLines (name : String) (lines : List String) : List String :=
  goLines name 1 (false, 0) lines

/-- `content.split("\n")`, keeping every field. -/
def matSplit (s : String) : List String :=
  (splitAllNL s.toList).map fun l => String.mk l

/-- `_analyze_matlab_file` on a successfully read file. -/
def analyzeFile (name : String) (content : String) : List String :=
  analyzeLines name (matSplit content)

/-- A MATLAB file as name and content. -/
structure MFile where
  name : String
  content : String
deriving DecidableEq, Repr

/-- The issue list of `_static_matlab_analysis`: all files analyzed in
order. -/
def staticIssues (files : List MFile) : List String :=
  files.flatMap fun f => analyzeFile f.name f.content

/-- The fields of `self.results` that the exit-code decision reads. -/
structure MResults where
  totalFiles : Nat
  issues : List String
  passed : Bool
  summaryStr : String
deriving DecidableEq, Repr

/-- The outcome of `run_matlab_quality_checks` as far as `run_all_checks`
can observe it: the static-analysis fallback (the primary use case), an
error dictionary, or an external-script success (whose result carries no
`passed` key). -/
inductive ExtOutcome where
  | fallbackStatic
  | extError (msg : String)
  | extSuccess (output : String)
deriving DecidableEq, Repr

/-- `run_all_checks`: no files means an immediate pass; otherwise the
subsystem outcome decides — static analysis fills `issues` and sets
`passed` to their emptiness, an error sets `passed` to false with the
issue list untouched (empty), and a script success without a `passed`
key also sets `passed` to false. -/
def runAllChecks (files : List MFile) (ext : ExtOutcome) : MResults :=
  if files.length = 0 then
    { totalFiles := 0, issues := [], passed := true,
      summaryStr := "[SKIP] No MATLAB files to check - passed" }
  else
    match ext with
    | .extError m =>
      { totalFiles := files.length, issues := [], passed := false,
        summaryStr := "MATLAB quality checks failed: " ++ m }
    | .fallbackStatic =>
      let iss := staticIssues files
      if iss = [] then
        { totalFiles := files.length, issues := iss, passed := true,
          summaryStr := "[PASS] MATLAB quality checks PASSED (" ++
            toString files.length ++ " files checked)" }
      else
        { totalFiles := files.length, issues := iss, passed := false,
          summaryStr := "[FAIL] MATLAB quality checks FAILED (" ++
            toString files.length ++ " files checked)" }
    | .extSuccess _ =>
      { totalFiles := files.length, issues := [], passed := false,
        summaryStr := "[FAIL] MATLAB quality checks FAILED (" ++
          toString files.length ++ " files checked)" }

/-- The exit-code decision of `main`: strict mode fails on any issue,
normal mode fails exactly when `passed` is false. -/
def exitCode (strict : Bool) (r : MResults) : Nat :=
  if strict then (if r.passed && r.issues.isEmpty then 0 else 1)
  else (if r.passed then 0 else 1)

/-- A line that increments the nesting counter. -/
def lineKindOpen (line : String) : Bool :=
  let ls := pstripL line.toList
  decide (ls ≠ []) && !isCommentL ls && openMatch ls

/-- A line that decrements the nesting counter. -/
def lineKindEnd (line : String) : Bool :=
  let ls := pstripL line.toList
  decide (ls ≠ []) && !isCommentL ls && endMatch ls

/-- The counter of the claim's amended reading: the fold in which each
decrement is clamped at zero at the step where it occurs. -/
def counterStep (c : Int) (line : String) : Int :=
  let ls := pstripL line.toList
  if ls = [] then c
  else if isCommentL ls then c
  else
    let c1 := if openMatch ls then c + 1 else c
    if endMatch ls then (if c1 - 1 ≤ 0 then 0 else c1 - 1) else c1

/-- The per-step clamped counter over a line sequence. -/
def counterSpec (lines : List String) : Int :=
  lines.foldl counterStep 0

/-- The counter of the claim's literal reading: the net count of opening
lines minus closing lines, clamped at zero globally. -/
def globalClampCounter (lines : List String) : Int :=
  max 0 (((lines.filter lineKindOpen).length : Int) -
    ((lines.filter lineKindEnd).length : Int))

/-- The gravitational-constant message for the literal `9.81`. -/
def gravMsg (name : String) (i : Nat) : String :=
  msgAt name i "Magic number 9.81 (gravitational acceleration [m/s²] - approximate standard gravity) - define as named constant"

end MatlabCheck

namespace StrScan

/-- A needle found in a list is found in any left extension of it. -/
theorem containsSubL_append_right (n l₂ : List Char) (h : containsSubL n l₂ = true) :
    ∀ l₁ : List Char, containsSubL n (l₁ ++ l₂) = true := by
  intro l₁
  induction l₁ with
  | nil => simpa using h
  | cons c t ih =>
    simp only [List.cons_append, containsSubL, Bool.or_eq_true]
    exact Or.inr ih

/-- A needle whose first character differs from `a` never occurs in a
run of `a`s. -/
theorem containsSubL_replicate_ne (c₀ : Char) (cs : List Char) (a : Char)
    (hne : ¬c₀ = a) : ∀ m : Nat, containsSubL (c₀ :: cs) (List.replicate m a) = false := by
  intro m
  induction m with
  | zero => simp [containsSubL, isPfx]
  | succ k ih =>
    simp only [List.replicate_succ, containsSubL, isPfx, Bool.or_eq_false_iff,
      Bool.and_eq_false_iff]
    exact ⟨Or.inl (by simpa using hne), ih⟩

/-- Every list leads with itself. -/
theorem isPfx_refl : ∀ l : List Char, isPfx l l = true := by
  intro l
  induction l with
  | nil => rfl
  | cons c t ih => simp [isPfx, ih]

/-- Every list contains itself. -/
theorem containsSubL_self (l : List Char) : containsSubL l l = true := by
  cases l with
  | nil => rfl
  | cons c t => simp [containsSubL, isPfx_refl]

end StrScan

namespace SciAuditor

/-- C2 (counterexample): on `x = 1 / 0` the walker DOES emit a
"Singularity Risk" entry — the right operand is a `Constant` whose value
is `0`, so `node.right.value != 0` fails and the flag fires; the claim
says no Issue is emitted for this line. -/
theorem division_by_zero_literal_flagged :
    (⟨1, "Singularity Risk", singularityMsg⟩ : Risk) ∈
      auditStmt (.assign 1 "x" (.binOp 1 .div (.constant 1 (.vint 1)) (.constant 1 (.vint 0)))) := by
  decide

/-- C2 (amended): a division is flagged as "Singularity Risk" exactly when
its right operand is not a literal constant comparing `!= 0`; in
particular `x = 1 / 0` IS flagged (zero literal), `x = 1 / n` is flagged,
and `x = 1 / 2` is not. -/
theorem division_risk_characterization :
    (∀ (ln : Nat) (x : String) (v : PyVal) (r : PyExpr),
      auditStmt (.assign ln x (.binOp ln .div (.constant ln v) r)) =
        (if rightIsNonzeroConst r then []
          else [⟨ln, "Singularity Risk", singularityMsg⟩]) ++ auditExpr r)
    ∧ auditStmt (.assign 1 "x" (.binOp 1 .div (.constant 1 (.vint 1)) (.name 1 "n"))) =
        [⟨1, "Singularity Risk", singularityMsg⟩]
    ∧ auditStmt (.assign 1 "x" (.binOp 1 .div (.constant 1 (.vint 1)) (.constant 1 (.vint 2)))) =
        [] := by
  refine ⟨fun ln x v r => ?_, by decide, by decide⟩
  by_cases h : rightIsNonzeroConst r = true <;>
    simp [auditStmt, auditExpr, h]

/-- C3 (counterexample): the bare-name call `sin(1.5708)` produces NO
"Unit Ambiguity" entry — `visit_Call` requires `node.func` to be an
`ast.Attribute`, and a bare name is an `ast.Name`; the claim says this
call must be flagged. -/
theorem bare_sin_call_not_flagged :
    auditStmt (.exprStmt 1 (.call 1 (.name 1 "sin")
      (.cons (.constant 1 (.vfloat (15708/10000))) .nil))) = [] := by
  decide

/-- C3 (amended): only calls whose callee is an attribute access with
attribute `sin`/`cos`/`tan` (e.g. `math.sin`) are examined: such a call
with a literal numeric argument yields a "Unit Ambiguity" entry, such a
call with a bare-name argument yields none, and a bare-name call like
`sin(...)` is never flagged regardless of its argument. -/
theorem trig_unit_ambiguity_characterization :
    (∀ (ln : Nat) (m fn : String) (v : PyVal),
      (fn = "sin" ∨ fn = "cos" ∨ fn = "tan") → v.isNum = true →
      auditExpr (.call ln (.attributeE ln (.name ln m) fn) (.cons (.constant ln v) .nil)) =
        [⟨ln, "Unit Ambiguity", unitAmbiguityMsg⟩])
    ∧ (∀ (ln : Nat) (m fn t : String),
      auditExpr (.call ln (.attributeE ln (.name ln m) fn) (.cons (.name ln t) .nil)) = [])
    ∧ (∀ (ln : Nat) (fn : String) (v : PyVal),
      auditExpr (.call ln (.name ln fn) (.cons (.constant ln v) .nil)) = []) := by
  refine ⟨fun ln m fn v hfn hv => ?_, fun ln m fn t => ?_, fun ln fn v => ?_⟩
  · simp [auditExpr, auditArgs, funcIsTrigAttr, anyNumericConstArg, hfn, hv]
  · simp [auditExpr, auditArgs, funcIsTrigAttr, anyNumericConstArg]
  · simp [auditExpr, auditArgs, funcIsTrigAttr, anyNumericConstArg]

/-- C3 (witness): instantiating the characterization at `math.sin(1.5708)`
(flagged), `math.sin(theta)` (clean) and bare `sin(1.5708)` (clean). -/
theorem trig_unit_ambiguity_witness :
    auditExpr (.call 1 (.attributeE 1 (.name 1 "math") "sin")
        (.cons (.constant 1 (.vfloat (15708/10000))) .nil)) =
      [⟨1, "Unit Ambiguity", unitAmbiguityMsg⟩]
    ∧ auditExpr (.call 1 (.attributeE 1 (.name 1 "math") "sin") (.cons (.name 1 "theta") .nil)) = []
    ∧ auditExpr (.call 1 (.name 1 "sin") (.cons (.constant 1 (.vfloat (15708/10000))) .nil)) = [] :=
  ⟨trig_unit_ambiguity_characterization.1 1 "math" "sin" (.vfloat (15708/10000))
      (Or.inl rfl) (by decide),
    trig_unit_ambiguity_characterization.2.1 1 "math" "sin" "theta",
    trig_unit_ambiguity_characterization.2.2 1 "sin" (.vfloat (15708/10000))⟩

/-- C10 (code bug): the auditor accumulates into the module-level global
`RISKS`, so a second scan of the same unchanged module within one process
reports a different (doubled) risk list than the first — state from the
first run leaks into the second, contradicting the idempotence the spec
requires (and the spec's own design note flags this global list as a
defect to be replaced). -/
theorem global_risks_second_run_differs :
    auditRun (auditRun [] [.assign 1 "x" (.binOp 1 .div (.constant 1 (.vint 1)) (.name 1 "n"))])
        [.assign 1 "x" (.binOp 1 .div (.constant 1 (.vint 1)) (.name 1 "n"))] ≠
      auditRun [] [.assign 1 "x" (.binOp 1 .div (.constant 1 (.vint 1)) (.name 1 "n"))] := by
  decide

end SciAuditor

namespace QualityCheck

open StrScan

/-- Heads of two successful literal leading patterns on the same list
agree; so a list with leading pattern `a :: as` cannot also lead with
`b :: bs` when `b ≠ a`. -/
theorem isPfx_false_of_head_ne {a b : Char} {as bs l : List Char}
    (hne : b ≠ a) (h : isPfx (a :: as) l = true) : isPfx (b :: bs) l = false := by
  cases l with
  | nil => simp [isPfx] at h
  | cons d t =>
    simp only [isPfx, Bool.and_eq_true, decide_eq_true_eq] at h
    simp only [isPfx, Bool.and_eq_false_iff, decide_eq_false_iff_not]
    exact Or.inl (fun hbd => hne (hbd.trans h.1.symm))

/-- C1 (counterexample): `check_magic_numbers`, invoked directly with its
default `is_excluded` flag on the lines of a file whose exclusion
decision is `excluded = true` (content-signature match), still emits an
Issue — the function has no content defense of its own; the claim says no
rule may contribute an Issue for such a file even under direct
invocation. -/
theorem magic_rule_direct_call_ignores_exclusion :
    shouldExcludeFile exclFileWithMagic = true ∧
      checkMagicNumbers (pySplitlines exclFileWithMagic.content) false =
        [(2, "Use math.pi instead of 3.141", "x = 3.141")] := by
  constructor
  · decide
  · decide

/-- C1 (amended): through the per-file driver `check_file`, a file whose
exclusion decision is `excluded = true` contributes no Issue (for any
behaviour of the AST pass); under direct invocation only the
content-marker defense inside `check_banned_patterns` protects an
excluded file, while `check_magic_numbers` relies solely on its
`is_excluded` argument. -/
theorem excluded_file_contributes_no_issues :
    (∀ (astCheck : String → List Issue) (f : PFile),
      shouldExcludeFile f = true → checkFile astCheck f = [])
    ∧ (∀ lines : List String,
      containsSub marker (joinLines lines) = true →
        checkBannedPatterns lines false = []) := by
  constructor
  · intro astCheck f h
    simp [checkFile, h]
  · intro lines h
    cases lines with
    | nil => simp [containsSub, containsSubL, isPfx, marker, joinLines] at h
    | cons l t => simp [checkBannedPatterns, h]

/-- C1 (witness): the amended statement evaluated on the concrete
excluded file and on a line containing the marker. -/
theorem excluded_file_no_issues_witness :
    shouldExcludeFile exclFileWithMagic = true
      ∧ checkFile (fun _ => []) exclFileWithMagic = []
      ∧ containsSub marker (joinLines ["# QUALITY_CHECK_SCRIPT_V1 - Unique marker"]) = true
      ∧ checkBannedPatterns ["# QUALITY_CHECK_SCRIPT_V1 - Unique marker"] false = [] :=
  ⟨by decide,
    excluded_file_contributes_no_issues.1 (fun _ => []) exclFileWithMagic (by decide),
    by decide,
    excluded_file_contributes_no_issues.2 _ (by decide)⟩

/-- C7 (counterexample): a file whose content contains the unique marker
only after the first 4096 characters is NOT excluded — the
content-signature check reads a 4096-character window, so the claim's
"every file whose content contains the marker" fails beyond it. -/
theorem marker_past_window_not_excluded :
    containsSub marker markerPastWindowFile.content = true ∧
      shouldExcludeFile markerPastWindowFile = false := by
  have hdata : markerPastWindowFile.content.toList =
      List.replicate 4096 'a' ++ marker.toList := rfl
  have hstart : markerPastWindowFile.content.toList.take 4096 =
      List.replicate 4096 'a' := by
    rw [hdata]
    have h2 := List.take_left (List.replicate 4096 'a') marker.toList
    rwa [List.length_replicate] at h2
  constructor
  · unfold containsSub
    rw [hdata]
    exact containsSubL_append_right _ _ (containsSubL_self _) _
  · have hm : containsSubL marker.toList (List.replicate 4096 'a') = false := by
      have : marker.toList = 'Q' :: "UALITY_CHECK_SCRIPT_V1".toList := rfl
      rw [this]
      exact containsSubL_replicate_ne _ _ _ (by decide) _
    have hb : containsSubL "BANNED_PATTERNS = [".toList (List.replicate 4096 'a') = false := by
      have : "BANNED_PATTERNS = [".toList = 'B' :: "ANNED_PATTERNS = [".toList := rfl
      rw [this]
      exact containsSubL_replicate_ne _ _ _ (by decide) _
    have hname : checkFilename markerPastWindowFile = false := by decide
    have hpath : markerPastWindowFile.pathMatch = false := rfl
    have hsig : contentSignature markerPastWindowFile = false := by
      unfold contentSignature
      simp only [markerPastWindowFile, Bool.not_true, Bool.false_eq_true, if_false]
      rw [show markerPastWindowFile.content =
        String.mk (List.replicate 4096 'a') ++ marker from rfl] at hstart
      simp only [hstart, hm, hb, Bool.false_and, Bool.or_false]
    simp [shouldExcludeFile, hname, hpath, hsig]

/-- C7 (amended): every readable file whose content contains the unique
marker within the first 4096 characters is excluded, regardless of its
basename or of path resolution. -/
theorem marker_in_window_excludes :
    ∀ f : PFile, f.fileExists = true → f.openOk = true →
      containsSubL marker.toList (f.content.toList.take 4096) = true →
      shouldExcludeFile f = true := by
  intro f hex hopen h
  simp only [shouldExcludeFile, contentSignature, hex, hopen, Bool.not_true,
    Bool.false_eq_true, if_false, Bool.or_eq_true]
  exact Or.inr (Or.inl h)

/-- C7 (witness): the amended statement evaluated on a small file whose
marker sits inside the window. -/
theorem marker_in_window_excludes_witness :
    markerInWindowFile.fileExists = true
      ∧ markerInWindowFile.openOk = true
      ∧ containsSubL marker.toList (markerInWindowFile.content.toList.take 4096) = true
      ∧ shouldExcludeFile markerInWindowFile = true :=
  ⟨rfl, rfl, by decide, marker_in_window_excludes markerInWindowFile rfl rfl (by decide)⟩

/-- C8: a `pass` that is the sole body of a class is classified
legitimate and the file yields no banned-pattern or magic-number Issue;
the same `pass` as the sole body of a standalone function header is
classified not legitimate (the backward scan stops at the `def` header
with a negative verdict) and the empty-`pass` Issue is emitted. -/
theorem pass_context_classification :
    (∀ c : String, sStartsWith "class " (pstrip c) = true →
      isLegitimatePassContext [c, "    pass"] 2 = true)
    ∧ (∀ h : String, sStartsWith "def " (pstrip h) = true →
      containsSub "try:" (pstrip h) = false →
      containsSub "except" (pstrip h) = false →
      containsSub marker (joinLines [h, "    pass"]) = false →
      containsSub "BANNED_PATTERNS = [" (joinLines [h, "    pass"]) = false →
      isLegitimatePassContext [h, "    pass"] 2 = false ∧
        (2, "Empty pass statement - consider adding logic or comment", "pass") ∈
          checkBannedPatterns [h, "    pass"] false)
    ∧ checkBannedPatterns ["class Foo:", "    pass"] false = []
    ∧ checkMagicNumbers ["class Foo:", "    pass"] false = [] := by
  refine ⟨?_, ?_, by decide, by decide⟩
  · intro c hc
    have hp : pstrip "    pass" = "pass" := by decide
    simp [isLegitimatePassContext, getLine, isInClassDef, isInClassDefAux, hp, hc]
  · intro h hdef htry hexc hmk hbp
    have hclass : sStartsWith "class " (pstrip h) = false := by
      have h1 : "def ".toList = 'd' :: "ef ".toList := rfl
      have h2 : "class ".toList = 'c' :: "lass ".toList := rfl
      simp only [sStartsWith] at hdef ⊢
      rw [h1] at hdef
      rw [h2]
      exact isPfx_false_of_head_ne (by decide) hdef
    have hwith : sStartsWith "with " (pstrip h) = false := by
      have h1 : "def ".toList = 'd' :: "ef ".toList := rfl
      have h2 : "with ".toList = 'w' :: "ith ".toList := rfl
      simp only [sStartsWith] at hdef ⊢
      rw [h1] at hdef
      rw [h2]
      exact isPfx_false_of_head_ne (by decide) hdef
    have hp : pstrip "    pass" = "pass" := by decide
    have hleg : isLegitimatePassContext [h, "    pass"] 2 = false := by
      simp [isLegitimatePassContext, getLine, isInClassDef, isInClassDefAux,
        isInTryExcept, isInTryExceptAux, isInCtxManager, isInCtxManagerAux,
        hp, hclass, hdef, hwith, htry, hexc]
    refine ⟨hleg, ?_⟩
    have hline2 : perLineBanned [h, "    pass"] (2, "    pass") =
        [(2, "Empty pass statement - consider adding logic or comment", "pass")] := by
      have hskip : skipPatternDefLine "    pass" = false := by decide
      have hban : bannedLineIssues 2 "    pass" = [] := by decide
      simp [perLineBanned, hskip, hban, hp, hleg]
    have hcond : (decide (¬([h, "    pass"] = [])) &&
        (containsSub marker (joinLines [h, "    pass"]) ||
          (containsSub "BANNED_PATTERNS = [" (joinLines [h, "    pass"]) &&
            containsSub "Quality check script" (joinLines [h, "    pass"])))) = false := by
      rw [hmk, hbp]
      simp
    rw [checkBannedPatterns]
    simp only [hcond, Bool.false_eq_true, if_false]
    simp only [withIdx, List.flatMap_cons, List.flatMap_nil, List.append_nil, hline2]
    exact List.mem_append_right _ (List.mem_singleton.mpr rfl)

/-- C8 (witness): the classification applied to the two concrete files
`class Foo: / pass` and `def foo(): / pass`. -/
theorem pass_context_classification_witness :
    isLegitimatePassContext ["class Foo:", "    pass"] 2 = true
      ∧ isLegitimatePassContext ["def foo():", "    pass"] 2 = false
      ∧ (2, "Empty pass statement - consider adding logic or comment", "pass") ∈
          checkBannedPatterns ["def foo():", "    pass"] false :=
  ⟨pass_context_classification.1 "class Foo:" (by decide),
    (pass_context_classification.2.1 "def foo():" (by decide) (by decide) (by decide)
      (by decide) (by decide)).1,
    (pass_context_classification.2.1 "def foo():" (by decide) (by decide) (by decide)
      (by decide) (by decide)).2⟩

end QualityCheck

namespace MatlabCheck

open StrScan

/-- The counter component of the scanner step coincides with the
flag-free clamped counter step. -/
theorem nestStep_counter (st : Bool × Int) (l : String) :
    (nestStep st l).2 = counterStep st.2 l := by
  simp only [nestStep, counterStep, nestUpd]
  split_ifs <;> rfl

/-- One scanner step preserves non-negativity of the counter. -/
theorem nestStep_nonneg (st : Bool × Int) (l : String) (h : 0 ≤ st.2) :
    0 ≤ (nestStep st l).2 := by
  rw [nestStep_counter]
  unfold counterStep
  dsimp only
  split_ifs <;> omega

/-- One scanner step preserves "flag set implies positive counter". -/
theorem nestStep_flag_pos (st : Bool × Int) (l : String) (h0 : 0 ≤ st.2)
    (h : st.1 = true → 0 < st.2) :
    (nestStep st l).1 = true → 0 < (nestStep st l).2 := by
  unfold nestStep nestUpd
  dsimp only
  split_ifs <;> simp_all <;> omega

/-- C6 (amended): after any line sequence the counter is non-negative
and equals the fold in which each decrement is clamped at zero at its
own step; the counter being zero forces the "inside function" flag off;
and within one step the flag can only fall from set to cleared on a
closing line that drives the counter to zero. -/
theorem nesting_tracker_invariants :
    (∀ lines : List String,
      0 ≤ (scanState lines).2 ∧ (scanState lines).2 = counterSpec lines)
    ∧ (∀ lines : List String, (scanState lines).2 = 0 → (scanState lines).1 = false)
    ∧ (∀ (st : Bool × Int) (l : String), st.1 = true → (nestStep st l).1 = false →
        endMatch (pstripL l.toList) = true ∧ (nestStep st l).2 = 0) := by
  have key : ∀ (lines : List String) (st : Bool × Int), 0 ≤ st.2 →
      0 ≤ (lines.foldl nestStep st).2 ∧
        (lines.foldl nestStep st).2 = lines.foldl counterStep st.2 := by
    intro lines
    induction lines with
    | nil => intro st h; exact ⟨h, rfl⟩
    | cons l t ih =>
      intro st h
      rw [List.foldl_cons, List.foldl_cons]
      have h2 := ih (nestStep st l) (nestStep_nonneg st l h)
      rw [nestStep_counter] at h2
      exact h2
  have flagKey : ∀ (lines : List String) (st : Bool × Int),
      0 ≤ st.2 → (st.1 = true → 0 < st.2) →
      0 ≤ (lines.foldl nestStep st).2 ∧
        ((lines.foldl nestStep st).1 = true → 0 < (lines.foldl nestStep st).2) := by
    intro lines
    induction lines with
    | nil => intro st h0 h1; exact ⟨h0, h1⟩
    | cons l t ih =>
      intro st h0 h1
      rw [List.foldl_cons]
      exact ih (nestStep st l) (nestStep_nonneg st l h0) (nestStep_flag_pos st l h0 h1)
  refine ⟨fun lines => key lines (false, 0) le_rfl, fun lines hz => ?_, fun st l h1 h2 => ?_⟩
  · have h := (flagKey lines (false, 0) le_rfl (by simp)).2
    unfold scanState at hz ⊢
    cases hfl : (lines.foldl nestStep (false, 0)).1
    · rfl
    · have := h hfl
      omega
  · unfold nestStep nestUpd at h2 ⊢
    dsimp only at h2 ⊢
    split_ifs at h2 ⊢ <;> simp_all

/-- C6 (witness): the invariants evaluated on a concrete scan — a
one-line function file has counter 1 matching the clamped fold, a plain
line leaves the flag off at counter zero, and the step from flag-set
state `(true, 1)` over an `end` line clears the flag at counter zero. -/
theorem nesting_tracker_invariants_witness :
    (0 ≤ (scanState ["function f()"]).2 ∧
      (scanState ["function f()"]).2 = counterSpec ["function f()"])
    ∧ ((scanState ["x = 1"]).2 = 0 → (scanState ["x = 1"]).1 = false)
    ∧ ((true, (1 : Int)).1 = true → (nestStep (true, 1) "end").1 = false →
        endMatch (pstripL "end".toList) = true ∧ (nestStep (true, 1) "end").2 = 0) :=
  ⟨nesting_tracker_invariants.1 ["function f()"],
    nesting_tracker_invariants.2.1 ["x = 1"],
    nesting_tracker_invariants.2.2 (true, 1) "end"⟩

/-- C6 (counterexample): the claim's formula — the net count of opening
lines minus closing lines clamped at zero globally — disagrees with the
scanner: on `end` followed by `function f()` the scanner's counter is 1
(the early decrement was clamped at its own step) while the global
formula gives 0. -/
theorem nesting_counter_global_clamp_mismatch :
    (scanState ["end", "function f()"]).2 = 1 ∧
      globalClampCounter ["end", "function f()"] = 0 := by
  constructor
  · decide
  · decide

/-- C5 (counterexample): a top-level `clear all` line (not inside any
function body) is NOT flagged — the whole clear/clc/close block sits
under the "inside function" guard, while the claim says the blanket
variant is flagged unconditionally. -/
theorem clear_all_top_level_not_flagged :
    analyzeLines "f.m" ["clear all"] = [] := by
  decide

/-- C5 (amended): all four variants — blanket clear-all, plain clear,
`clc`, and `close all` — are flagged only when the "inside function"
flag is set; when it is set, a blanket-clear line is flagged. -/
theorem clear_family_gated_by_function_flag :
    (∀ (name : String) (i : Nat) (ls : List Char),
      clearFamilyIssues false name i ls = [])
    ∧ (∀ (name : String) (i : Nat) (ls : List Char), clearAllPat ls = true →
        msgAt name i "Avoid 'clear all' or 'clear global' in functions - clears all variables, functions, and MEX links"
          ∈ clearFamilyIssues true name i ls)
    ∧ analyzeLines "f.m" ["function y = f(x)", "clear all", "end"] =
        [msgAt "f.m" 1 "Missing function docstring",
          msgAt "f.m" 1 "Missing arguments validation block",
          msgAt "f.m" 2 "Avoid 'clear all' or 'clear global' in functions - clears all variables, functions, and MEX links"] := by
  refine ⟨fun name i ls => rfl, fun name i ls h => ?_, by decide⟩
  simp [clearFamilyIssues, h]

/-- C5 (witness): the gating applied to the concrete line `clear all`
with the flag set. -/
theorem clear_family_gated_witness :
    msgAt "f.m" 2 "Avoid 'clear all' or 'clear global' in functions - clears all variables, functions, and MEX links"
      ∈ clearFamilyIssues true "f.m" 2 "clear all".toList :=
  clear_family_gated_by_function_flag.2.1 "f.m" 2 "clear all".toList (by decide)

/-- An issue produced by `processLine` at position `k` of the line list
belongs to the full output of the line loop, provided the line produces
it whatever the scanner state at that point is. -/
theorem mem_goLines_of_all_states (name msg : String) :
    ∀ (lines : List String) (i : Nat) (st : Bool × Int) (k : Nat) (line : String),
      lines.get? k = some line →
      (∀ st2 : Bool × Int, msg ∈ (processLine name (i + k) line (lines.drop (k + 1)) st2).1) →
      msg ∈ goLines name i st lines := by
  intro lines
  induction lines with
  | nil => intro i st k line hget _; simp at hget
  | cons l t ih =>
    intro i st k line hget hmem
    cases k with
    | zero =>
      simp only [List.get?_cons_zero, Option.some_inj] at hget
      subst hget
      have h0 := hmem st
      simp only [Nat.add_zero, List.drop_succ_cons, List.drop_zero] at h0
      exact List.mem_append_left _ h0
    | succ k2 =>
      apply List.mem_append_right
      apply ih (i + 1) (processLine name i l t st).2 k2 line
      · simpa using hget
      · intro st2
        have h2 := hmem st2
        have harith : i + (k2 + 1) = i + 1 + k2 := by omega
        rw [harith] at h2
        simpa using h2

/-- A line whose extracted literals include `9.81` makes `processLine`
emit the gravitational-constant issue, whatever the scanner state. -/
theorem processLine_emits_known_constant (name : String) (i : Nat) (line : String)
    (nexts : List String) (st : Bool × Int)
    (hne : pstripL line.toList ≠ [])
    (hnc : isCommentL (pstripL line.toList) = false)
    (hnum : "9.81".toList ∈ findNums (pstripL line.toList)) :
    gravMsg name i ∈ (processLine name i line nexts st).1 := by
  have hmem : gravMsg name i ∈ magicIssues name i line (pstripL line.toList) := by
    unfold magicIssues
    apply List.mem_flatMap.mpr
    refine ⟨"9.81".toList, hnum, ?_⟩
    have hk : knownConstants (String.mk "9.81".toList) =
        some "gravitational acceleration [m/s²] - approximate standard gravity" := by
      decide
    dsimp only
    rw [hk]
    apply List.mem_singleton.mpr
    unfold gravMsg
    exact congrArg (msgAt name i) (by decide)
  have hmem2 : gravMsg name i ∈ magicIssues name i line (pstripL line.data) := hmem
  have hncneg : ¬(isCommentL (pstripL line.toList) = true) := by
    intro hcontra
    rw [hnc] at hcontra
    exact Bool.false_ne_true hcontra
  unfold processLine
  dsimp only
  rw [if_neg hne, if_neg hncneg]
  simp [List.mem_append, hmem, hmem2]

/-- C4 (amended): the extracted literal `9.81` on any non-empty,
non-comment line is flagged with the gravitational-constant message —
including when it stands after a trailing `%` comment marker, since the
comment-position exemption applies only to generic (non-constant) magic
numbers; a generic literal after a trailing comment marker is exempt. -/
theorem known_constant_flagged_on_any_noncomment_line :
    (∀ (name : String) (lines : List String) (k : Nat) (line : String),
      lines.get? k = some line →
      pstripL line.toList ≠ [] →
      isCommentL (pstripL line.toList) = false →
      "9.81".toList ∈ findNums (pstripL line.toList) →
      gravMsg name (k + 1) ∈ analyzeLines name lines)
    ∧ analyzeLines "f.m" ["x = y % 42.5"] = [] := by
  constructor
  · intro name lines k line hget hne hnc hnum
    unfold analyzeLines
    apply mem_goLines_of_all_states name (gravMsg name (k + 1)) lines 1 (false, 0) k line hget
    intro st2
    rw [show 1 + k = k + 1 from by omega]
    exact processLine_emits_known_constant name (k + 1) line (lines.drop (k + 1)) st2 hne hnc hnum
  · decide

/-- C4 (witness): the amended statement applied to a plain line carrying
`9.81`. -/
theorem known_constant_flagged_witness :
    gravMsg "g.m" 1 ∈ analyzeLines "g.m" ["a = 9.81"] :=
  known_constant_flagged_on_any_noncomment_line.1 "g.m" ["a = 9.81"] 0 "a = 9.81"
    rfl (by decide) (by decide) (by decide)

/-- C4 (counterexample): the literal `9.81` standing AFTER the trailing
comment marker on `x = 1 % 9.81` is still flagged with the
gravitational-constant message — the known-constant branch never
consults the comment position, while the claim says no Issue may be
emitted for it. -/
theorem grav_after_comment_marker_still_flagged :
    gravMsg "f.m" 1 ∈ analyzeLines "f.m" ["x = 1 % 9.81"] := by
  decide

/-- C9 (counterexample): when the external-toolchain subsystem reports a
fatal error, the report has `passed = false` while the aggregated issue
sequence is empty — the claimed equivalence between `passed` and
emptiness of the issues fails on this path (the exit code is still 1). -/
theorem error_path_passed_false_with_no_issues :
    (runAllChecks [⟨"a.m", "x = 1"⟩] (.extError "boom")).issues = []
      ∧ (runAllChecks [⟨"a.m", "x = 1"⟩] (.extError "boom")).passed = false
      ∧ exitCode false (runAllChecks [⟨"a.m", "x = 1"⟩] (.extError "boom")) = 1 := by
  refine ⟨rfl, rfl, rfl⟩

/-- C9 (amended): on every scan that completes through the
static-analysis path (including the no-files skip), `passed` holds
exactly when the issue sequence is empty and both exit-code modes return
0 exactly when `passed`; on the subsystem-error path the exit code is 1,
but there `passed` is false with an empty issue sequence. -/
theorem passed_iff_issues_on_static_path :
    (∀ files : List MFile,
      ((runAllChecks files .fallbackStatic).passed = true ↔
        (runAllChecks files .fallbackStatic).issues = [])
      ∧ exitCode false (runAllChecks files .fallbackStatic) =
          (if (runAllChecks files .fallbackStatic).passed then 0 else 1)
      ∧ exitCode true (runAllChecks files .fallbackStatic) =
          (if (runAllChecks files .fallbackStatic).passed then 0 else 1))
    ∧ (∀ (files : List MFile) (msg : String), files ≠ [] →
      exitCode false (runAllChecks files (.extError msg)) = 1 ∧
        exitCode true (runAllChecks files (.extError msg)) = 1) := by
  constructor
  · intro files
    unfold runAllChecks
    by_cases hf : files.length = 0
    · simp [hf, exitCode]
    · simp only [hf, if_false]
      by_cases hi : staticIssues files = []
      · simp [hi, exitCode]
      · simp [hi, exitCode]
  · intro files msg hne
    have hl : ¬files.length = 0 := by
      intro h
      exact hne (List.length_eq_zero.mp h)
    simp [runAllChecks, exitCode, hl]

/-- C9 (witness): the error-path exit codes evaluated on a concrete
file list. -/
theorem passed_iff_issues_witness :
    exitCode false (runAllChecks [⟨"a.m", ""⟩] (.extError "x")) = 1 ∧
      exitCode true (runAllChecks [⟨"a.m", ""⟩] (.extError "x")) = 1 :=
  passed_iff_issues_on_static_path.2 [⟨"a.m", ""⟩] "x" (by decide)

end MatlabCheck
